import Mathlib

/-!
# Verification of the rorm-orm/rorm QA report tools

Shallow embedding of the two Python scripts under `.github/qa/`:

* `fix_clippy_sarif.py` ("PathRewriter"): rewrites every result location's
  artifact URI of a SARIF document by `os.path.join(base, os.path.normpath(uri))`.
* `sonar_to_sarif.py` ("ReportConverter"): converts a sonarQubeGenericIssueData
  issue list into a SARIF document.

JSON documents are modelled by the inductive type `Json` (numbers as `Int`,
which covers every number the scripts touch).  Python `dict` access and
assignment are modelled by `Json.getKey` / `Json.setKey`; a lookup on a
missing key or on a non-object, like any other uncaught Python exception,
is modelled by `Option.none` propagating outward.  The relevant parts of
Python's `str` and POSIX `os.path` libraries (the scripts run on POSIX CI)
are modelled by structurally recursive functions so that everything is
kernel-computable.
-/

/-- A JSON value as produced by Python's `json.load`.  Object fields keep
their (unique) keys in insertion order, matching Python `dict` semantics
and `json.dump` output order. -/
inductive Json where
  | null : Json
  | bool : Bool → Json
  | num : Int → Json
  | str : String → Json
  | arr : List Json → Json
  | obj : List (String × Json) → Json

/-- Lookup of a key in an object's field list (Python `d[k]` on a `dict`,
successful case). -/
def lookupField : List (String × Json) → String → Option Json
  | [], _ => none
  | (k', v) :: rest, k => if k' = k then some v else lookupField rest k

/-- Python `d[k] = v` on a `dict`: replace in place if the key is present
(keeping its position), otherwise append the new key at the end. -/
def setFields : List (String × Json) → String → Json → List (String × Json)
  | [], k, v => [(k, v)]
  | (k', v') :: rest, k, v =>
    if k' = k then (k', v) :: rest else (k', v') :: setFields rest k v

/-- Python subscript read `j[k]` with a string key: only works on objects,
anything else raises (modelled as `none`). -/
def Json.getKey (j : Json) (k : String) : Option Json :=
  match j with
  | .obj fields => lookupField fields k
  | _ => none

/-- Python subscript assignment `j[k] = v` on an object; on any other
value the scripts never reach an assignment (the preceding read failed),
so we leave the value unchanged. -/
def Json.setKey (j : Json) (k : String) (v : Json) : Json :=
  match j with
  | .obj fields => .obj (setFields fields k v)
  | _ => j

/-- Using a JSON value as a Python list (iteration): only arrays. -/
def Json.asArr : Json → Option (List Json)
  | .arr xs => some xs
  | _ => none

/-- Using a JSON value as a Python `str` (e.g. as `os.path` input). -/
def Json.asStr : Json → Option String
  | .str s => some s
  | _ => none

namespace Py

/-- Python `str.split(sep)` for a one-character separator, on char lists:
every occurrence splits, empty pieces are kept, `split` of the empty
string is `[""]`. -/
def splitAux (c : Char) : List Char → List Char → List (List Char)
  | [], cur => [cur.reverse]
  | x :: xs, cur =>
    if x = c then cur.reverse :: splitAux c xs [] else splitAux c xs (x :: cur)

/-- Python `s.split(sep)` for a one-character separator. -/
def split (c : Char) (s : String) : List String :=
  (splitAux c s.data []).map (fun l => String.mk l)

/-- The whitespace characters stripped by Python `str.strip()` /
`bytes.strip()` (the ASCII set, which is all the scripts ever meet). -/
def isSpaceChar (c : Char) : Bool :=
  c = ' ' || c = '\t' || c = '\n' || c = '\r' || c = '\x0b' || c = '\x0c'

/-- Python `s.strip()`: remove leading and trailing whitespace. -/
def strip (s : String) : String :=
  String.mk (((s.data.dropWhile isSpaceChar).reverse.dropWhile isSpaceChar).reverse)

/-- Python `s.startswith(p)`. -/
def startsWith (s p : String) : Bool :=
  p.data.isPrefixOf s.data

/-- Python `s.endswith(p)`. -/
def endsWith (s p : String) : Bool :=
  p.data.reverse.isPrefixOf s.data.reverse

/-- Python `s[1:]`: drop the first character. -/
def dropFirst (s : String) : String :=
  String.mk s.data.tail

/-- Python `lst[-1]` on the (never empty) result of `split`. -/
def lastOf (l : List String) : String :=
  l.getLastD ""

/-- Python `sep.join(parts)`. -/
def joinWith (sep : String) : List String → String
  | [] => ""
  | [x] => x
  | x :: xs => x ++ sep ++ joinWith sep xs

/-- The quote character Python `repr` picks for a string: single quotes
unless the string contains a single quote but no double quote. -/
def reprQuote (s : String) : Char :=
  if s.data.contains '\'' && !(s.data.contains '"') then '"' else '\''

/-- The escape sequence Python `repr` emits for one character inside
quotes `q` (the characters that can occur in the scripts' file names). -/
def reprEscape (q : Char) (c : Char) : List Char :=
  if c = '\\' then ['\\', '\\']
  else if c = q then ['\\', q]
  else if c = '\n' then ['\\', 'n']
  else if c = '\r' then ['\\', 'r']
  else if c = '\t' then ['\\', 't']
  else [c]

/-- Python `repr` of a string, as used by the `{...!r}` f-string
conversion. -/
def reprStr (s : String) : String :=
  let q := reprQuote s
  String.mk (q :: ((s.data.map (reprEscape q)).flatten ++ [q]))

/-- Python truthiness of an `Optional[str]`: `None` and `""` are falsy. -/
def strTruthy : Option String → Bool
  | none => false
  | some s => s != ""

end Py

namespace OsPath

/-- One step of the component-collapsing loop of POSIX
`os.path.normpath`: skip empty and `"."` components; keep a `".."` when
it cannot be cancelled (relative path with empty output so far, or the
previous kept component is itself `".."`); otherwise pop. -/
def normStep (initialSlashes : Nat) (acc : List String) (comp : String) : List String :=
  if comp = "" ∨ comp = "." then acc
  else if comp ≠ ".." ∨ (initialSlashes = 0 ∧ acc = []) ∨ acc.getLast? = some ".." then
    acc ++ [comp]
  else
    acc.dropLast

/-- A run of `n` leading slashes. -/
def slashes : Nat → String
  | 0 => ""
  | n + 1 => "/" ++ slashes n

/-- Glue path components back together with `/`. -/
def intercalateSlash : List String → String
  | [] => ""
  | [c] => c
  | c :: cs => c ++ "/" ++ intercalateSlash cs

/-- POSIX `os.path.normpath`.  An empty path is `"."`; one or two (but
not three or more) leading slashes are preserved; `"."` and empty
components vanish and `".."` cancels a preceding real component. -/
def normpath (path : String) : String :=
  if path = "" then "."
  else
    let initialSlashes : Nat :=
      if Py.startsWith path "/" then
        if Py.startsWith path "//" && !(Py.startsWith path "///") then 2 else 1
      else 0
    let comps := Py.split '/' path
    let newComps := comps.foldl (normStep initialSlashes) []
    let result := slashes initialSlashes ++ intercalateSlash newComps
    if result = "" then "." else result

/-- POSIX `os.path.join` for two arguments: an absolute second argument
discards the first; otherwise concatenate, inserting a `/` unless the
first part is empty or already ends in `/`. -/
def join (a b : String) : String :=
  if Py.startsWith b "/" then b
  else if a = "" || Py.endsWith a "/" then a ++ b
  else a ++ "/" ++ b

end OsPath

/-- An `Option`-valued map over a list, modelling a Python loop whose body
may raise: the first failure aborts the whole run. -/
def mapO (f : α → Option β) : List α → Option (List β)
  | [] => some []
  | x :: xs => do
    let y ← f x
    let ys ← mapO f xs
    some (y :: ys)

namespace FixClippySarif

/-- The per-location body of `fix_clippy_sarif.py`'s triple loop,
parameterised by the URI transformation `f` (the script instantiates
`f p := os.path.join(base, os.path.normpath(p))`):
read `location["physicalLocation"]["artifactLocation"]["uri"]`, apply
`f`, and assign the result back to the same nested field. -/
def locRewrite (f : String → String) (location : Json) : Option Json := do
  let pl ← location.getKey "physicalLocation"
  let al ← pl.getKey "artifactLocation"
  let uriJ ← al.getKey "uri"
  let p ← uriJ.asStr
  some (location.setKey "physicalLocation"
    (pl.setKey "artifactLocation" (al.setKey "uri" (Json.str (f p)))))

/-- Loop `for location in result["locations"]`. -/
def resultRewrite (f : String → String) (result : Json) : Option Json := do
  let locsJ ← result.getKey "locations"
  let locs ← locsJ.asArr
  let locs' ← mapO (locRewrite f) locs
  some (result.setKey "locations" (Json.arr locs'))

/-- Loop `for result in run["results"]`. -/
def runRewrite (f : String → String) (run : Json) : Option Json := do
  let resultsJ ← run.getKey "results"
  let results ← resultsJ.asArr
  let results' ← mapO (resultRewrite f) results
  some (run.setKey "results" (Json.arr results'))

/-- Loop `for run in data["runs"]`. -/
def docRewrite (f : String → String) (data : Json) : Option Json := do
  let runsJ ← data.getKey "runs"
  let runs ← runsJ.asArr
  let runs' ← mapO (runRewrite f) runs
  some (data.setKey "runs" (Json.arr runs'))

/-- Function `main` of `fix_clippy_sarif.py`, as the document transformation it
performs between `json.load` and `json.dump`: every location URI becomes
`os.path.join(base, os.path.normpath(uri))`; `none` models an uncaught
exception on a document of unexpected shape. -/
def main (base : String) (data : Json) : Option Json :=
  docRewrite (fun p => OsPath.join base (OsPath.normpath p)) data

end FixClippySarif

namespace SonarToSarif

def SCHEMA_URL : String :=
  "https://raw.githubusercontent.com/oasis-tcs/sarif-spec/master/Schemata/sarif-schema-2.1.0.json"

/-- Function `to_level` of `sonar_to_sarif.py`:
`{"MINOR": "note", "MAJOR": "warning"}.get(severity, "warning")`.
The dictionary lookup returns the default for every hashable non-key
(other strings, numbers, booleans, `null`); an unhashable argument
(a JSON array or object) raises `TypeError`, modelled as `none`. -/
def to_level (severity : Json) : Option String :=
  match severity with
  | .arr _ => none
  | .obj _ => none
  | .str "MINOR" => some "note"
  | .str "MAJOR" => some "warning"
  | _ => some "warning"

/-- The loop body of `main`: build the SARIF result appended for one
issue, where `counter` is the running index.  Field order and nesting
mirror the Python dict literal. -/
def makeResult (base : Option String) (counter : Int) (issue : Json) : Option Json := do
  let pl ← issue.getKey "primaryLocation"
  let fpJ ← pl.getKey "filePath"
  let fp ← fpJ.asStr
  let p0 := OsPath.normpath fp
  let p := if Py.strTruthy base then OsPath.join (base.getD "") p0 else p0
  let ruleId ← issue.getKey "ruleId"
  let sev ← issue.getKey "severity"
  let lvl ← to_level sev
  let msg ← pl.getKey "message"
  let tr ← pl.getKey "textRange"
  let sl ← tr.getKey "startLine"
  some (Json.obj [
    ("ruleId", ruleId),
    ("level", Json.str lvl),
    ("message", Json.obj [("text", msg)]),
    ("locations", Json.arr [Json.obj [
      ("id", Json.num counter),
      ("physicalLocation", Json.obj [
        ("artifactLocation", Json.obj [("uri", Json.str p)]),
        ("region", Json.obj [("startLine", sl)])])]])])

/-- Loop `for issue in content["issues"]` with the `counter` variable:
append `makeResult` for each issue, incrementing the counter. -/
def convertIssuesAux (base : Option String) (counter : Int) : List Json → Option (List Json)
  | [] => some []
  | issue :: rest => do
    let r ← makeResult base counter issue
    let rs ← convertIssuesAux base (counter + 1) rest
    some (r :: rs)

/-- The whole issue loop, starting from `counter = 0`. -/
def convertIssues (base : Option String) (issues : List Json) : Option (List Json) :=
  convertIssuesAux base 0 issues

/-- The run object built by `main`: tool-driver metadata from the
scanner version query (`stdout.strip().decode().split("\n")[-1]`, with
`semanticVersion` the version minus its first character), conversion
metadata with the literal command line, the results, and — when
`args.git` is truthy — a `versionControlProvenance` entry appended from
the stripped `git rev-parse` outputs. -/
def buildRun (scannerOut : String) (argv : List String) (git : Option String)
    (gitSha gitBranch : String) (results : List Json) : Json :=
  let scanner_version := Py.lastOf (Py.split '\n' (Py.strip scannerOut))
  let run := Json.obj [
    ("tool", Json.obj [("driver", Json.obj [
      ("name", Json.str "dscanner"),
      ("version", Json.str scanner_version),
      ("semanticVersion", Json.str (Py.dropFirst scanner_version))])]),
    ("conversion", Json.obj [
      ("tool", Json.obj [("driver", Json.obj [("name", Json.str "sonar2sarif.py")])]),
      ("invocation", Json.obj [
        ("commandLine", Json.str ("python3 " ++ Py.joinWith " " argv)),
        ("executionSuccessful", Json.bool true)])]),
    ("results", Json.arr results)]
  if Py.strTruthy git then
    run.setKey "versionControlProvenance" (Json.arr [Json.obj [
      ("repositoryUri", Json.str (git.getD "")),
      ("revisionId", Json.str (Py.strip gitSha)),
      ("branch", Json.str (Py.strip gitBranch))]])
  else
    run

/-- The parsed command-line options of `sonar_to_sarif.py`. -/
structure Args where
  in_file : String
  out_file : String
  force : Bool
  base : Option String
  git : Option String

/-- The process environment `main` consults: whether
`os.path.exists(out_file)` holds, the parsed content of the input file,
the decoded stdout of the scanner version query, the stdouts of the two
`git rev-parse` calls, and `sys.argv`. -/
structure Env where
  outFileExists : Bool
  inContent : Json
  scannerOut : String
  gitSha : String
  gitBranch : String
  argv : List String

/-- The observable effects of one run of `main`: its return value (the
process exit status), whether the input file was opened, the message
printed to stderr (if any), and the document written to the output file
(if any). -/
structure Effects where
  exitCode : Int
  readInput : Bool
  errMsg : Option String
  written : Option Json

/-- Function `main` of `sonar_to_sarif.py`.  `none` models an uncaught exception
(input of unexpected shape). -/
def main (args : Args) (env : Env) : Option Effects :=
  if env.outFileExists && !args.force then
    some { exitCode := 1, readInput := false,
           errMsg := some ("Output file " ++ Py.reprStr args.out_file ++
             " already exists. Use '-f' to overwrite it."),
           written := none }
  else
    match env.inContent.getKey "issues" with
    | none => none
    | some issuesJ =>
      match issuesJ.asArr with
      | none => none
      | some issues =>
        match convertIssues args.base issues with
        | none => none
        | some results =>
          some { exitCode := 0, readInput := true, errMsg := none,
                 written := some (Json.obj [
                   ("version", Json.str "2.1.0"),
                   ("runs", Json.arr [buildRun env.scannerOut env.argv args.git
                     env.gitSha env.gitBranch results]),
                   ("$schema", Json.str SCHEMA_URL)]) }

end SonarToSarif

/-- The artifact URI of a SARIF location:
`location["physicalLocation"]["artifactLocation"]["uri"]`. -/
def locUri (location : Json) : Option Json := do
  (← (← location.getKey "physicalLocation").getKey "artifactLocation").getKey "uri"

/-- The URI of a SARIF result's first location. -/
def resultUri (result : Json) : Option Json := do
  let locs ← (← result.getKey "locations").asArr
  let l ← locs.head?
  locUri l

/-- The `id` of a SARIF result's first location. -/
def resultId (result : Json) : Option Json := do
  let locs ← (← result.getKey "locations").asArr
  let l ← locs.head?
  l.getKey "id"

/-- The `region.startLine` of a SARIF result's first location. -/
def resultStartLine (result : Json) : Option Json := do
  let locs ← (← result.getKey "locations").asArr
  let l ← locs.head?
  (← (← l.getKey "physicalLocation").getKey "region").getKey "startLine"

/-- The `message.text` of a SARIF result. -/
def resultMessageText (result : Json) : Option Json := do
  (← result.getKey "message").getKey "text"

/-- An input issue's `primaryLocation.message`. -/
def issueMessage (issue : Json) : Option Json := do
  (← issue.getKey "primaryLocation").getKey "message"

/-- An input issue's `primaryLocation.filePath`. -/
def issueFilePath (issue : Json) : Option Json := do
  (← issue.getKey "primaryLocation").getKey "filePath"

/-- An input issue's `primaryLocation.textRange.startLine`. -/
def issueStartLine (issue : Json) : Option Json := do
  (← (← issue.getKey "primaryLocation").getKey "textRange").getKey "startLine"

/-- The URI of the first location of the first result of the first run of
a SARIF document. -/
def docFirstUri (data : Json) : Option Json := do
  let runs ← (← data.getKey "runs").asArr
  let run ← runs.head?
  let results ← (← run.getKey "results").asArr
  let r ← results.head?
  resultUri r

/-- The `results` array of a SARIF document's first run. -/
def docResults (doc : Json) : Option Json := do
  let runs ← (← doc.getKey "runs").asArr
  let run ← runs.head?
  run.getKey "results"

/-- A field of a run's `tool.driver` object. -/
def runDriverField (run : Json) (field : String) : Option Json := do
  (← (← run.getKey "tool").getKey "driver").getKey field

/-- A field of the `tool.driver` object of a SARIF document's first run. -/
def docDriverField (doc : Json) (field : String) : Option Json := do
  let runs ← (← doc.getKey "runs").asArr
  let run ← runs.head?
  runDriverField run field

/-- Blank out every artifact URI reachable by PathRewriter's traversal:
two documents agree on everything except those URIs iff `eraseUris`
sends them to the same document. -/
def eraseUris : Json → Option Json :=
  FixClippySarif.docRewrite (fun _ => "")

/-- Blank out the `conversion.invocation.commandLine` field of a run. -/
def scrubRun (run : Json) : Json :=
  match run.getKey "conversion" with
  | some conv =>
    match conv.getKey "invocation" with
    | some inv =>
      run.setKey "conversion" (conv.setKey "invocation" (inv.setKey "commandLine" (Json.str "")))
    | none => run
  | none => run

/-- Blank out the command-line field of every run of a document. -/
def scrubDoc (doc : Json) : Json :=
  match doc.getKey "runs" with
  | some (Json.arr runs) => doc.setKey "runs" (Json.arr (runs.map scrubRun))
  | _ => doc

/-! ## Relations describing PathRewriter's effect on URIs -/

/-- Location `loc'` is `loc` with its URI `s` replaced by
`os.path.join(base, os.path.normpath(s))`. -/
def UriRewritten (base : String) (loc loc' : Json) : Prop :=
  ∃ s, locUri loc = some (Json.str s) ∧
    locUri loc' = some (Json.str (OsPath.join base (OsPath.normpath s)))

/-- Result `r'` has the same number of locations as `r`, each with its
URI rewritten. -/
def LocsRewritten (base : String) (r r' : Json) : Prop :=
  ∃ ls ls', r.getKey "locations" = some (Json.arr ls) ∧
    r'.getKey "locations" = some (Json.arr ls') ∧
    List.Forall₂ (UriRewritten base) ls ls'

/-- Run `run'` has the same number of results as `run`, pairwise related
by `LocsRewritten`. -/
def ResultsRewritten (base : String) (run run' : Json) : Prop :=
  ∃ rs rs', run.getKey "results" = some (Json.arr rs) ∧
    run'.getKey "results" = some (Json.arr rs') ∧
    List.Forall₂ (LocsRewritten base) rs rs'

/-- Document `d'` has the same number of runs as `d`, pairwise related by
`ResultsRewritten`: every artifact URI is rewritten, counts and order of
runs, results and locations are preserved. -/
def RunsRewritten (base : String) (d d' : Json) : Prop :=
  ∃ runs runs', d.getKey "runs" = some (Json.arr runs) ∧
    d'.getKey "runs" = some (Json.arr runs') ∧
    List.Forall₂ (ResultsRewritten base) runs runs'

/-! ## Concrete documents used to instantiate the claims -/

/-- The spec's PathRewriter example: a SARIF document whose single
location URI is `"../a/b.d"`. -/
def c1doc : Json :=
  Json.obj [("runs", Json.arr [Json.obj [("results", Json.arr [Json.obj [("locations",
    Json.arr [Json.obj [("physicalLocation", Json.obj [("artifactLocation",
      Json.obj [("uri", Json.str "../a/b.d")])])]])]])]])]

/-- PathRewriter's output on `c1doc` with base `"/x/y"`. -/
def c1out : Json :=
  (FixClippySarif.main "/x/y" c1doc).getD Json.null

/-- A SARIF document with one run, two results and an extra field, used
to exercise the PathRewriter frame property. -/
def c6doc : Json :=
  Json.obj [
    ("version", Json.str "2.1.0"),
    ("runs", Json.arr [Json.obj [
      ("tool", Json.str "clippy"),
      ("results", Json.arr [
        Json.obj [("message", Json.str "m1"), ("locations", Json.arr [Json.obj [
          ("physicalLocation", Json.obj [
            ("artifactLocation", Json.obj [("uri", Json.str "src/lib.rs"), ("index", Json.num 0)]),
            ("region", Json.obj [("startLine", Json.num 3)])])]])],
        Json.obj [("message", Json.str "m2"), ("locations", Json.arr [])]])]])]

/-- PathRewriter's output on `c6doc` with base `"/base"`. -/
def c6out : Json :=
  (FixClippySarif.main "/base" c6doc).getD Json.null

/-- The spec's ReportConverter example issue. -/
def c5issue : Json :=
  Json.obj [
    ("ruleId", Json.str "dscanner.bugs.logic"),
    ("severity", Json.str "MAJOR"),
    ("primaryLocation", Json.obj [
      ("filePath", Json.str "./src/foo.d"),
      ("message", Json.str "bad thing"),
      ("textRange", Json.obj [("startLine", Json.num 42)])])]

/-- The SARIF result the spec example expects for `c5issue` with base
`"/repo"` and counter 0. -/
def c5result : Json :=
  Json.obj [
    ("ruleId", Json.str "dscanner.bugs.logic"),
    ("level", Json.str "warning"),
    ("message", Json.obj [("text", Json.str "bad thing")]),
    ("locations", Json.arr [Json.obj [
      ("id", Json.num 0),
      ("physicalLocation", Json.obj [
        ("artifactLocation", Json.obj [("uri", Json.str "/repo/src/foo.d")]),
        ("region", Json.obj [("startLine", Json.num 42)])])]])]

/-- A second issue (unknown severity, absolute path) for the two-issue
ReportConverter run. -/
def c2issue1 : Json :=
  Json.obj [
    ("ruleId", Json.str "dscanner.style.phobos"),
    ("severity", Json.str "CRITICAL"),
    ("primaryLocation", Json.obj [
      ("filePath", Json.str "/abs/bar.d"),
      ("message", Json.str "style"),
      ("textRange", Json.obj [("startLine", Json.num 7)])])]

/-- A placeholder `Effects` value used only as the (never taken)
default of `Option.getD` when naming a successful run's effects. -/
def effDefault : SonarToSarif.Effects :=
  { exitCode := 2, readInput := false, errMsg := none, written := none }

def c2args : SonarToSarif.Args :=
  { in_file := "report.json", out_file := "out.sarif", force := true,
    base := some "/repo", git := none }

def c2env : SonarToSarif.Env :=
  { outFileExists := false,
    inContent := Json.obj [("issues", Json.arr [c5issue, c2issue1])],
    scannerOut := "v1.2.3\n", gitSha := "", gitBranch := "",
    argv := ["sonar_to_sarif.py"] }

def c2eff : SonarToSarif.Effects :=
  (SonarToSarif.main c2args c2env).getD effDefault

def c2doc : Json :=
  c2eff.written.getD Json.null

def c4args : SonarToSarif.Args :=
  { in_file := "report.json", out_file := "out.sarif", force := false,
    base := none, git := none }

def c4env : SonarToSarif.Env :=
  { outFileExists := true, inContent := Json.null, scannerOut := "",
    gitSha := "", gitBranch := "", argv := [] }

def c7args : SonarToSarif.Args :=
  { in_file := "report.json", out_file := "out.sarif", force := true,
    base := none, git := none }

def c7env : SonarToSarif.Env :=
  { outFileExists := false, inContent := Json.obj [("issues", Json.arr [])],
    scannerOut := "v1.2.3\n", gitSha := "", gitBranch := "",
    argv := ["sonar_to_sarif.py"] }

def c7eff : SonarToSarif.Effects :=
  (SonarToSarif.main c7args c7env).getD effDefault

def c7doc : Json :=
  c7eff.written.getD Json.null

def c8args : SonarToSarif.Args :=
  { in_file := "report.json", out_file := "out.sarif", force := true,
    base := some "/repo", git := some "https://example.org/repo.git" }

def c8eff1 : SonarToSarif.Effects :=
  (SonarToSarif.main c8args
    { outFileExists := false, inContent := Json.obj [("issues", Json.arr [c5issue])],
      scannerOut := "v1.2.3\n", gitSha := "deadbeef\n", gitBranch := "main\n",
      argv := ["sonar_to_sarif.py", "-f"] }).getD effDefault

def c8eff2 : SonarToSarif.Effects :=
  (SonarToSarif.main c8args
    { outFileExists := false, inContent := Json.obj [("issues", Json.arr [c5issue])],
      scannerOut := "v1.2.3\n", gitSha := "deadbeef\n", gitBranch := "main\n",
      argv := ["sonar_to_sarif.py", "--force", "-i", "report.json"] }).getD effDefault

/-- A location whose URI is already absolute, for the base-discarding
claim. -/
def c10loc : Json :=
  Json.obj [("physicalLocation", Json.obj [("artifactLocation",
    Json.obj [("uri", Json.str "/abs/q.d")])])]

def c10locOut : Json :=
  (FixClippySarif.locRewrite
    (fun p => OsPath.join "/some/base" (OsPath.normpath p)) c10loc).getD Json.null

/-- An issue whose filePath is already absolute, for the base-discarding
claim. -/
def c10issue : Json :=
  Json.obj [
    ("ruleId", Json.str "r"),
    ("severity", Json.str "MINOR"),
    ("primaryLocation", Json.obj [
      ("filePath", Json.str "/abs/q.d"),
      ("message", Json.str "m"),
      ("textRange", Json.obj [("startLine", Json.num 1)])])]

def c10result : Json :=
  (SonarToSarif.makeResult (some "/some/base") 0 c10issue).getD Json.null

/-! ## Basic lemmas about the JSON model -/

theorem lookup_setFields_self (fs : List (String × Json)) (k : String) (v : Json) :
    lookupField (setFields fs k v) k = some v := by
  induction fs with
  | nil => simp [setFields, lookupField]
  | cons p rest ih =>
    obtain ⟨k', v'⟩ := p
    by_cases h : k' = k
    · simp [setFields, lookupField, h]
    · simp [setFields, lookupField, h, ih]

theorem lookup_setFields_ne (fs : List (String × Json)) (k k' : String) (v : Json)
    (h : k ≠ k') : lookupField (setFields fs k v) k' = lookupField fs k' := by
  induction fs with
  | nil => simp [setFields, lookupField, h]
  | cons p rest ih =>
    obtain ⟨k'', v''⟩ := p
    by_cases h2 : k'' = k
    · subst h2
      simp [setFields, lookupField, h]
    · simp [setFields, lookupField, h2, ih]

theorem setFields_setFields (fs : List (String × Json)) (k : String) (a b : Json) :
    setFields (setFields fs k a) k b = setFields fs k b := by
  induction fs with
  | nil => simp [setFields]
  | cons p rest ih =>
    obtain ⟨k', v'⟩ := p
    by_cases h : k' = k
    · simp [setFields, h]
    · simp [setFields, h, ih]

theorem getKey_setKey_self {j : Json} {k : String} {v : Json} (w : Json)
    (h : j.getKey k = some v) : (j.setKey k w).getKey k = some w := by
  cases j <;> simp [Json.getKey] at h
  simp [Json.getKey, Json.setKey, lookup_setFields_self]

theorem getKey_setKey_ne (j : Json) {k k' : String} (w : Json) (h : k ≠ k') :
    (j.setKey k w).getKey k' = j.getKey k' := by
  cases j <;> simp [Json.getKey, Json.setKey]
  exact lookup_setFields_ne _ _ _ _ h

theorem setKey_setKey (j : Json) (k : String) (a b : Json) :
    (j.setKey k a).setKey k b = j.setKey k b := by
  cases j <;> simp [Json.setKey]
  exact setFields_setFields _ _ _ _

/-! ## Basic lemmas about `mapO` -/

theorem mapO_eq_some_forall₂ {f : α → Option β} :
    ∀ {xs : List α} {ys : List β}, mapO f xs = some ys →
      List.Forall₂ (fun x y => f x = some y) xs ys := by
  intro xs
  induction xs with
  | nil =>
    intro ys h
    simp [mapO] at h
    subst h
    exact .nil
  | cons x xs ih =>
    intro ys h
    simp only [mapO, Option.pure_def, Option.bind_eq_bind, Option.bind_eq_some] at h
    obtain ⟨y, hy, ys', hys', heq⟩ := h
    cases heq
    exact .cons hy (ih hys')

theorem mapO_congr_rel {g : α → Option γ} {xs ys : List α}
    (h : List.Forall₂ (fun x y => g x = g y) xs ys) : mapO g xs = mapO g ys := by
  induction h with
  | nil => rfl
  | cons hxy _ ih => simp [mapO, hxy, ih]

theorem asStr_eq_some {j : Json} {s : String} (h : j.asStr = some s) : j = Json.str s := by
  cases j <;> simp [Json.asStr] at h
  rw [h]

theorem asArr_eq_some {j : Json} {xs : List Json} (h : j.asArr = some xs) : j = Json.arr xs := by
  cases j <;> simp [Json.asArr] at h
  rw [h]

/-- Pairing version of `mapO_eq_some_forall₂` used for frame reasoning:
if every `F`-step admits a common `E`-image for source and target, so
does the whole list. -/
theorem mapO_erase_pair {F E : α → Option α}
    (hFE : ∀ x y, F x = some y → ∃ z, E x = some z ∧ E y = some z) :
    ∀ {xs ys : List α}, mapO F xs = some ys →
      ∃ zs, mapO E xs = some zs ∧ mapO E ys = some zs := by
  intro xs
  induction xs with
  | nil =>
    intro ys h
    simp [mapO] at h
    subst h
    exact ⟨[], rfl, rfl⟩
  | cons x xs ih =>
    intro ys h
    simp only [mapO, Option.pure_def, Option.bind_eq_bind, Option.bind_eq_some] at h
    obtain ⟨y, hy, ys', hys', heq⟩ := h
    cases heq
    obtain ⟨z, hz1, hz2⟩ := hFE x y hy
    obtain ⟨zs, h1, h2⟩ := ih hys'
    exact ⟨z :: zs, by simp [mapO, hz1, h1], by simp [mapO, hz2, h2]⟩

namespace FixClippySarif

theorem locRewrite_eq {f : String → String} {loc loc' : Json}
    (h : locRewrite f loc = some loc') :
    ∃ pl al s, loc.getKey "physicalLocation" = some pl ∧
      pl.getKey "artifactLocation" = some al ∧
      al.getKey "uri" = some (Json.str s) ∧
      loc' = loc.setKey "physicalLocation"
        (pl.setKey "artifactLocation" (al.setKey "uri" (Json.str (f s)))) := by
  simp only [locRewrite, Option.pure_def, Option.bind_eq_bind, Option.bind_eq_some] at h
  obtain ⟨pl, hpl, al, hal, uriJ, huri, s, hs, heq⟩ := h
  cases heq
  exact ⟨pl, al, s, hpl, hal, asStr_eq_some hs ▸ huri, rfl⟩

theorem locRewrite_uri {f : String → String} {loc loc' : Json}
    (h : locRewrite f loc = some loc') :
    ∃ s, locUri loc = some (Json.str s) ∧ locUri loc' = some (Json.str (f s)) := by
  obtain ⟨pl, al, s, hpl, hal, huri, rfl⟩ := locRewrite_eq h
  have h1 := getKey_setKey_self
    (pl.setKey "artifactLocation" (al.setKey "uri" (Json.str (f s)))) hpl
  have h2 := getKey_setKey_self (al.setKey "uri" (Json.str (f s))) hal
  have h3 := getKey_setKey_self (Json.str (f s)) huri
  exact ⟨s, by simp [locUri, hpl, hal, huri], by simp [locUri, h1, h2, h3]⟩

theorem locRewrite_erase {f : String → String} {loc loc' : Json}
    (h : locRewrite f loc = some loc') :
    ∃ l₀, locRewrite (fun _ => "") loc = some l₀ ∧
      locRewrite (fun _ => "") loc' = some l₀ := by
  obtain ⟨pl, al, s, hpl, hal, huri, rfl⟩ := locRewrite_eq h
  have h1 := getKey_setKey_self
    (pl.setKey "artifactLocation" (al.setKey "uri" (Json.str (f s)))) hpl
  have h2 := getKey_setKey_self (al.setKey "uri" (Json.str (f s))) hal
  have h3 := getKey_setKey_self (Json.str (f s)) huri
  refine ⟨loc.setKey "physicalLocation"
    (pl.setKey "artifactLocation" (al.setKey "uri" (Json.str ""))), ?_, ?_⟩
  · simp [locRewrite, hpl, hal, huri, Json.asStr]
  · simp [locRewrite, h1, h2, h3, Json.asStr, setKey_setKey]

theorem resultRewrite_eq {f : String → String} {r r' : Json}
    (h : resultRewrite f r = some r') :
    ∃ ls ls', r.getKey "locations" = some (Json.arr ls) ∧
      mapO (locRewrite f) ls = some ls' ∧
      r' = r.setKey "locations" (Json.arr ls') := by
  simp only [resultRewrite, Option.pure_def, Option.bind_eq_bind, Option.bind_eq_some] at h
  obtain ⟨locsJ, hlocs, ls, hls, ls', hls', heq⟩ := h
  cases heq
  exact ⟨ls, ls', asArr_eq_some hls ▸ hlocs, hls', rfl⟩

theorem resultRewrite_erase {f : String → String} {r r' : Json}
    (h : resultRewrite f r = some r') :
    ∃ r₀, resultRewrite (fun _ => "") r = some r₀ ∧
      resultRewrite (fun _ => "") r' = some r₀ := by
  obtain ⟨ls, ls', hlocs, hmap, rfl⟩ := resultRewrite_eq h
  obtain ⟨zs, hz1, hz2⟩ := mapO_erase_pair (fun x y hxy => locRewrite_erase hxy) hmap
  have h1 := getKey_setKey_self (Json.arr ls') hlocs
  refine ⟨r.setKey "locations" (Json.arr zs), ?_, ?_⟩
  · simp [resultRewrite, hlocs, Json.asArr, hz1]
  · simp [resultRewrite, h1, Json.asArr, hz2, setKey_setKey]

theorem runRewrite_eq {f : String → String} {run run' : Json}
    (h : runRewrite f run = some run') :
    ∃ rs rs', run.getKey "results" = some (Json.arr rs) ∧
      mapO (resultRewrite f) rs = some rs' ∧
      run' = run.setKey "results" (Json.arr rs') := by
  simp only [runRewrite, Option.pure_def, Option.bind_eq_bind, Option.bind_eq_some] at h
  obtain ⟨resultsJ, hres, rs, hrs, rs', hrs', heq⟩ := h
  cases heq
  exact ⟨rs, rs', asArr_eq_some hrs ▸ hres, hrs', rfl⟩

theorem runRewrite_erase {f : String → String} {run run' : Json}
    (h : runRewrite f run = some run') :
    ∃ r₀, runRewrite (fun _ => "") run = some r₀ ∧
      runRewrite (fun _ => "") run' = some r₀ := by
  obtain ⟨rs, rs', hres, hmap, rfl⟩ := runRewrite_eq h
  obtain ⟨zs, hz1, hz2⟩ := mapO_erase_pair (fun x y hxy => resultRewrite_erase hxy) hmap
  have h1 := getKey_setKey_self (Json.arr rs') hres
  refine ⟨run.setKey "results" (Json.arr zs), ?_, ?_⟩
  · simp [runRewrite, hres, Json.asArr, hz1]
  · simp [runRewrite, h1, Json.asArr, hz2, setKey_setKey]

theorem docRewrite_eq {f : String → String} {data out : Json}
    (h : docRewrite f data = some out) :
    ∃ runs runs', data.getKey "runs" = some (Json.arr runs) ∧
      mapO (runRewrite f) runs = some runs' ∧
      out = data.setKey "runs" (Json.arr runs') := by
  simp only [docRewrite, Option.pure_def, Option.bind_eq_bind, Option.bind_eq_some] at h
  obtain ⟨runsJ, hruns, runs, hr, runs', hr', heq⟩ := h
  cases heq
  exact ⟨runs, runs', asArr_eq_some hr ▸ hruns, hr', rfl⟩

theorem docRewrite_erase {f : String → String} {data out : Json}
    (h : docRewrite f data = some out) :
    ∃ d₀, docRewrite (fun _ => "") data = some d₀ ∧
      docRewrite (fun _ => "") out = some d₀ := by
  obtain ⟨runs, runs', hruns, hmap, rfl⟩ := docRewrite_eq h
  obtain ⟨zs, hz1, hz2⟩ := mapO_erase_pair (fun x y hxy => runRewrite_erase hxy) hmap
  have h1 := getKey_setKey_self (Json.arr runs') hruns
  refine ⟨data.setKey "runs" (Json.arr zs), ?_, ?_⟩
  · simp [docRewrite, hruns, Json.asArr, hz1]
  · simp [docRewrite, h1, Json.asArr, hz2, setKey_setKey]

end FixClippySarif

/-! ## Lemmas about the path model -/

theorem OsPath.join_absolute {a b : String} (h : Py.startsWith b "/" = true) :
    OsPath.join a b = b := by
  simp [OsPath.join, h]

theorem OsPath.join_empty_left (b : String) : OsPath.join "" b = b := by
  by_cases h : Py.startsWith b "/" = true
  · simp [OsPath.join, h]
  · have hcond : ("" = "" || Py.endsWith "" "/") = true := by simp
    simp only [OsPath.join, h, Bool.false_eq_true, if_false, hcond, if_true]
    rfl

/-! ## Characterization lemmas for ReportConverter -/

namespace SonarToSarif

theorem makeResult_eq {base : Option String} {counter : Int} {issue r : Json}
    (h : makeResult base counter issue = some r) :
    ∃ pl fp ruleId sev lvl msg tr sl,
      issue.getKey "primaryLocation" = some pl ∧
      pl.getKey "filePath" = some (Json.str fp) ∧
      issue.getKey "ruleId" = some ruleId ∧
      issue.getKey "severity" = some sev ∧
      to_level sev = some lvl ∧
      pl.getKey "message" = some msg ∧
      pl.getKey "textRange" = some tr ∧
      tr.getKey "startLine" = some sl ∧
      r = Json.obj [
        ("ruleId", ruleId),
        ("level", Json.str lvl),
        ("message", Json.obj [("text", msg)]),
        ("locations", Json.arr [Json.obj [
          ("id", Json.num counter),
          ("physicalLocation", Json.obj [
            ("artifactLocation", Json.obj [("uri", Json.str
              (if Py.strTruthy base then
                OsPath.join (base.getD "") (OsPath.normpath fp)
               else OsPath.normpath fp))]),
            ("region", Json.obj [("startLine", sl)])])]])] := by
  simp only [makeResult, Option.pure_def, Option.bind_eq_bind, Option.bind_eq_some] at h
  obtain ⟨pl, hpl, fpJ, hfpJ, fp, hfp, ruleId, hrule, sev, hsev, lvl, hlvl,
    msg, hmsg, tr, htr, sl, hsl, heq⟩ := h
  cases heq
  exact ⟨pl, fp, ruleId, sev, lvl, msg, tr, sl, hpl, asStr_eq_some hfp ▸ hfpJ,
    hrule, hsev, hlvl, hmsg, htr, hsl, rfl⟩

theorem makeResult_id {base : Option String} {c : Int} {issue r : Json}
    (h : makeResult base c issue = some r) : resultId r = some (Json.num c) := by
  obtain ⟨pl, fp, ruleId, sev, lvl, msg, tr, sl, _, _, _, _, _, _, _, _, rfl⟩ :=
    makeResult_eq h
  rfl

theorem convertIssuesAux_spec (base : Option String) :
    ∀ (issues : List Json) (c : Int) (results : List Json),
      convertIssuesAux base c issues = some results →
      results.length = issues.length ∧
      ∀ i : Fin results.length,
        resultId (results.get i) = some (Json.num (c + i.1)) := by
  intro issues
  induction issues with
  | nil =>
    intro c results h
    simp only [convertIssuesAux] at h
    cases h
    exact ⟨rfl, fun i => absurd i.2 (by simp)⟩
  | cons x xs ih =>
    intro c results h
    simp only [convertIssuesAux, Option.pure_def, Option.bind_eq_bind,
      Option.bind_eq_some] at h
    obtain ⟨r, hr, rs, hrs, heq⟩ := h
    cases heq
    obtain ⟨hlen, hid⟩ := ih (c + 1) rs hrs
    refine ⟨by simp [hlen], ?_⟩
    intro i
    match i with
    | ⟨0, _⟩ =>
      simpa using makeResult_id hr
    | ⟨n + 1, hn⟩ =>
      have hn' : n < rs.length := by simpa using hn
      have h2 := hid ⟨n, hn'⟩
      have harith : c + 1 + (n : Int) = c + ((n + 1 : Nat) : Int) := by
        push_cast
        ring
      simp only [List.get_cons_succ]
      rw [show (⟨n, hn'⟩ : Fin rs.length) = ⟨n, hn'⟩ from rfl] at h2
      rw [h2, harith]

theorem buildRun_results (scannerOut : String) (argv : List String)
    (git : Option String) (gitSha gitBranch : String) (results : List Json) :
    (buildRun scannerOut argv git gitSha gitBranch results).getKey "results"
      = some (Json.arr results) := by
  cases hg : Py.strTruthy git <;> simp only [buildRun, hg] <;> rfl

theorem buildRun_version (scannerOut : String) (argv : List String)
    (git : Option String) (gitSha gitBranch : String) (results : List Json) :
    runDriverField (buildRun scannerOut argv git gitSha gitBranch results) "version"
      = some (Json.str (Py.lastOf (Py.split '\n' (Py.strip scannerOut)))) := by
  cases hg : Py.strTruthy git <;> simp only [buildRun, hg] <;> rfl

theorem buildRun_semanticVersion (scannerOut : String) (argv : List String)
    (git : Option String) (gitSha gitBranch : String) (results : List Json) :
    runDriverField (buildRun scannerOut argv git gitSha gitBranch results)
        "semanticVersion"
      = some (Json.str (Py.dropFirst (Py.lastOf (Py.split '\n' (Py.strip scannerOut))))) := by
  cases hg : Py.strTruthy git <;> simp only [buildRun, hg] <;> rfl

/-- Successful runs of `main` that wrote a document: recover the issue
list, the converted results and the exact document shape. -/
theorem main_written_eq {args : Args} {env : Env} {e : Effects} {doc : Json}
    (h : main args env = some e) (hw : e.written = some doc) :
    ∃ issues results,
      env.inContent.getKey "issues" = some (Json.arr issues) ∧
      convertIssues args.base issues = some results ∧
      e = { exitCode := 0, readInput := true, errMsg := none, written := some doc } ∧
      doc = Json.obj [
        ("version", Json.str "2.1.0"),
        ("runs", Json.arr [buildRun env.scannerOut env.argv args.git
          env.gitSha env.gitBranch results]),
        ("$schema", Json.str SCHEMA_URL)] := by
  unfold main at h
  by_cases hc : (env.outFileExists && !args.force) = true
  · rw [if_pos hc] at h
    cases h
    simp at hw
  · rw [if_neg hc] at h
    split at h
    · cases h
    · rename_i issuesJ hI
      split at h
      · cases h
      · rename_i issues hA
        split at h
        · cases h
        · rename_i results hC
          cases h
          simp only [Option.some.injEq] at hw
          exact ⟨issues, results, asArr_eq_some hA ▸ hI, hC, by rw [hw], hw.symm⟩

end SonarToSarif

/-! ## The claims -/

/-- Claim C3: the severity-to-level mapping is total on strings:
`"MINOR"` maps to `"note"`, `"MAJOR"` maps to `"warning"`, and every
other value (including `"CRITICAL"`, the empty string, and `null` — and
likewise booleans and numbers) maps to `"warning"`; no such severity
value is dropped or treated as fatal. -/
theorem c3_to_level_total :
    SonarToSarif.to_level (Json.str "MINOR") = some "note" ∧
    SonarToSarif.to_level (Json.str "MAJOR") = some "warning" ∧
    (∀ s : String, s ≠ "MINOR" →
      SonarToSarif.to_level (Json.str s) = some "warning") ∧
    SonarToSarif.to_level Json.null = some "warning" ∧
    (∀ b : Bool, SonarToSarif.to_level (Json.bool b) = some "warning") ∧
    (∀ n : Int, SonarToSarif.to_level (Json.num n) = some "warning") := by
  refine ⟨rfl, rfl, ?_, rfl, fun b => rfl, fun n => rfl⟩
  intro s hs
  unfold SonarToSarif.to_level
  split
  · rename_i heq
    exact Json.noConfusion heq
  · rename_i heq
    exact Json.noConfusion heq
  · rename_i heq
    injection heq with h
    exact absurd h hs
  · rfl
  · rfl

theorem c3_to_level_total_witness :
    SonarToSarif.to_level (Json.str "CRITICAL") = some "warning" ∧
    SonarToSarif.to_level (Json.str "") = some "warning" ∧
    SonarToSarif.to_level Json.null = some "warning" :=
  ⟨c3_to_level_total.2.2.1 "CRITICAL" (by decide),
   c3_to_level_total.2.2.1 "" (by decide),
   c3_to_level_total.2.2.2.1⟩

/-- Claim C4: if the ReportConverter output path already exists and the
force flag is not set, the input file is not read, nothing is written
(the existing output is untouched), a user-facing message goes to the
error stream, and the process exits with status 1. -/
theorem c4_refuses_overwrite (args : SonarToSarif.Args) (env : SonarToSarif.Env)
    (hE : env.outFileExists = true) (hF : args.force = false) :
    SonarToSarif.main args env = some
      { exitCode := 1, readInput := false,
        errMsg := some ("Output file " ++ Py.reprStr args.out_file ++
          " already exists. Use '-f' to overwrite it."),
        written := none } := by
  unfold SonarToSarif.main
  rw [hE, hF]
  rfl

theorem c4_refuses_overwrite_witness :
    SonarToSarif.main c4args c4env = some
      { exitCode := 1, readInput := false,
        errMsg := some "Output file 'out.sarif' already exists. Use '-f' to overwrite it.",
        written := none } :=
  c4_refuses_overwrite c4args c4env rfl rfl

theorem docResults_wrap (x y run : Json) :
    docResults (Json.obj [("version", x), ("runs", Json.arr [run]), ("$schema", y)])
      = run.getKey "results" := rfl

theorem docDriverField_wrap (x y run : Json) (field : String) :
    docDriverField (Json.obj [("version", x), ("runs", Json.arr [run]), ("$schema", y)]) field
      = runDriverField run field := rfl

/-- Claim C5: every emitted SARIF result preserves `ruleId` and the
primary-location message verbatim (as `ruleId` and `message.text`),
copies `textRange.startLine` verbatim into `region.startLine`, carries
the counter as location `id`, and has URI `join(baseDir, normpath(filePath))`
when a base directory is given, else `normpath(filePath)`; on the spec's
example issue with base `"/repo"` and counter 0 the output is exactly
`c5result` (level `"warning"`, text `"bad thing"`, uri `"/repo/src/foo.d"`,
startLine 42, id 0). -/
theorem c5_result_fields :
    (∀ (base : Option String) (c : Int) (issue r : Json),
      SonarToSarif.makeResult base c issue = some r →
      r.getKey "ruleId" = issue.getKey "ruleId" ∧
      resultMessageText r = issueMessage issue ∧
      resultStartLine r = issueStartLine issue ∧
      resultId r = some (Json.num c) ∧
      (∃ fp, issueFilePath issue = some (Json.str fp) ∧
        resultUri r = some (Json.str (match base with
          | some b => OsPath.join b (OsPath.normpath fp)
          | none => OsPath.normpath fp)))) ∧
    SonarToSarif.makeResult (some "/repo") 0 c5issue = some c5result := by
  refine ⟨?_, rfl⟩
  intro base c issue r h
  obtain ⟨pl, fp, ruleId, sev, lvl, msg, tr, sl, hpl, hfp, hrule, hsev, hlvl,
    hmsg, htr, hsl, rfl⟩ := SonarToSarif.makeResult_eq h
  refine ⟨?_, ?_, ?_, rfl, fp, ?_, ?_⟩
  · rw [hrule]
    rfl
  · have hIM : issueMessage issue = some msg := by
      simp [issueMessage, hpl, hmsg]
    rw [hIM]
    rfl
  · have hSL : issueStartLine issue = some sl := by
      simp [issueStartLine, hpl, htr, hsl]
    rw [hSL]
    rfl
  · simp [issueFilePath, hpl, hfp]
  · show some (Json.str (if Py.strTruthy base then
        OsPath.join (base.getD "") (OsPath.normpath fp)
      else OsPath.normpath fp)) = _
    cases base with
    | none => rfl
    | some b =>
      by_cases hb : b = ""
      · subst hb
        show some (Json.str (OsPath.normpath fp))
          = some (Json.str (OsPath.join "" (OsPath.normpath fp)))
        rw [OsPath.join_empty_left]
      · have ht : Py.strTruthy (some b) = true := by simp [Py.strTruthy, hb]
        simp only [ht, if_true, Option.getD_some]

theorem c5_result_fields_witness :
    c5result.getKey "ruleId" = c5issue.getKey "ruleId" ∧
    resultMessageText c5result = issueMessage c5issue ∧
    resultStartLine c5result = issueStartLine c5issue ∧
    resultId c5result = some (Json.num 0) ∧
    (∃ fp, issueFilePath c5issue = some (Json.str fp) ∧
      resultUri c5result = some (Json.str (OsPath.join "/repo" (OsPath.normpath fp)))) :=
  c5_result_fields.1 (some "/repo") 0 c5issue c5result (by rfl)

/-- Claim C2: a successful ReportConverter run writes a document whose
first run's `results` array has exactly one result per input issue —
none dropped, none duplicated — and the location `id`s are exactly
0..N-1 in input order, with no gaps or repeats. -/
theorem c2_results_complete (args : SonarToSarif.Args) (env : SonarToSarif.Env)
    (e : SonarToSarif.Effects) (doc : Json)
    (h : SonarToSarif.main args env = some e) (hw : e.written = some doc) :
    ∃ issues results,
      env.inContent.getKey "issues" = some (Json.arr issues) ∧
      docResults doc = some (Json.arr results) ∧
      results.length = issues.length ∧
      ∀ i : Fin results.length, resultId (results.get i) = some (Json.num i.1) := by
  obtain ⟨issues, results, hI, hC, he, rfl⟩ := SonarToSarif.main_written_eq h hw
  obtain ⟨hlen, hid⟩ := SonarToSarif.convertIssuesAux_spec args.base issues 0 results hC
  refine ⟨issues, results, hI, ?_, hlen, ?_⟩
  · exact (docResults_wrap _ _ _).trans (SonarToSarif.buildRun_results _ _ _ _ _ _)
  · intro i
    have h2 := hid i
    rwa [show (0 : Int) + (i.1 : Int) = (i.1 : Int) by omega] at h2

theorem c2_results_complete_witness :
    ∃ issues results,
      c2env.inContent.getKey "issues" = some (Json.arr issues) ∧
      docResults c2doc = some (Json.arr results) ∧
      results.length = issues.length ∧
      ∀ i : Fin results.length, resultId (results.get i) = some (Json.num i.1) :=
  c2_results_complete c2args c2env c2eff c2doc (by rfl) (by rfl)

/-- Claim C7: the tool-driver `version` field of the written document
equals the last line of the (stripped) scanner version query output, and
`semanticVersion` is that token with its first character removed (so
`"v1.2.3"` gives semantic version `"1.2.3"`). -/
theorem c7_version_fields (args : SonarToSarif.Args) (env : SonarToSarif.Env)
    (e : SonarToSarif.Effects) (doc : Json)
    (h : SonarToSarif.main args env = some e) (hw : e.written = some doc) :
    docDriverField doc "version"
      = some (Json.str (Py.lastOf (Py.split '\n' (Py.strip env.scannerOut)))) ∧
    docDriverField doc "semanticVersion"
      = some (Json.str (Py.dropFirst (Py.lastOf (Py.split '\n' (Py.strip env.scannerOut))))) := by
  obtain ⟨issues, results, hI, hC, he, rfl⟩ := SonarToSarif.main_written_eq h hw
  exact ⟨(docDriverField_wrap _ _ _ _).trans (SonarToSarif.buildRun_version _ _ _ _ _ _),
    (docDriverField_wrap _ _ _ _).trans (SonarToSarif.buildRun_semanticVersion _ _ _ _ _ _)⟩

theorem c7_version_fields_witness :
    docDriverField c7doc "version" = some (Json.str "v1.2.3") ∧
    docDriverField c7doc "semanticVersion" = some (Json.str "1.2.3") :=
  c7_version_fields c7args c7env c7eff c7doc (by rfl) (by rfl)

theorem makeResult_empty_base (c : Int) (issue : Json) :
    SonarToSarif.makeResult (some "") c issue
      = SonarToSarif.makeResult none c issue := rfl

theorem convertIssuesAux_empty_base :
    ∀ (issues : List Json) (c : Int),
      SonarToSarif.convertIssuesAux (some "") c issues
        = SonarToSarif.convertIssuesAux none c issues := by
  intro issues
  induction issues with
  | nil => intro c; rfl
  | cons x xs ih =>
    intro c
    simp only [SonarToSarif.convertIssuesAux, makeResult_empty_base, ih]

/-- Claim C9: invoking ReportConverter with a base directory equal to the
empty string behaves exactly as if no base directory were supplied — the
whole run (in particular every emitted URI) is identical. -/
theorem c9_empty_base (args : SonarToSarif.Args) (env : SonarToSarif.Env) :
    SonarToSarif.main { args with base := some "" } env
      = SonarToSarif.main { args with base := none } env := by
  cases args with
  | mk in_file out_file force base git =>
    simp only [SonarToSarif.main, SonarToSarif.convertIssues, convertIssuesAux_empty_base]

/-- Claim C10: in both tools, when the normalized original path is
absolute the join discards the supplied base directory entirely: the
output URI equals the normalized original path, with the base playing no
part in it. -/
theorem c10_absolute_discards_base :
    (∀ (base : String) (loc loc' : Json) (s : String),
      FixClippySarif.locRewrite (fun p => OsPath.join base (OsPath.normpath p)) loc
        = some loc' →
      locUri loc = some (Json.str s) →
      Py.startsWith (OsPath.normpath s) "/" = true →
      locUri loc' = some (Json.str (OsPath.normpath s))) ∧
    (∀ (base : String) (c : Int) (issue r : Json) (fp : String),
      SonarToSarif.makeResult (some base) c issue = some r →
      issueFilePath issue = some (Json.str fp) →
      Py.startsWith (OsPath.normpath fp) "/" = true →
      resultUri r = some (Json.str (OsPath.normpath fp))) := by
  constructor
  · intro base loc loc' s h hu habs
    obtain ⟨s', hu', hv⟩ := FixClippySarif.locRewrite_uri h
    rw [hu] at hu'
    injection hu' with hs
    injection hs with hs2
    subst hs2
    rwa [OsPath.join_absolute habs] at hv
  · intro base c issue r fp h hfp habs
    obtain ⟨pl, fp', ruleId, sev, lvl, msg, tr, sl, hpl, hfp', hrule, hsev, hlvl,
      hmsg, htr, hsl, rfl⟩ := SonarToSarif.makeResult_eq h
    have hfp2 : issueFilePath issue = some (Json.str fp') := by
      simp [issueFilePath, hpl, hfp']
    rw [hfp] at hfp2
    injection hfp2 with hs
    injection hs with hs2
    subst hs2
    show some (Json.str (if Py.strTruthy (some base) then
        OsPath.join ((some base).getD "") (OsPath.normpath fp)
      else OsPath.normpath fp)) = some (Json.str (OsPath.normpath fp))
    by_cases hb : base = ""
    · subst hb
      rfl
    · have ht : Py.strTruthy (some base) = true := by simp [Py.strTruthy, hb]
      simp [ht, OsPath.join_absolute habs]

theorem c10_absolute_discards_base_witness :
    locUri c10locOut = some (Json.str "/abs/q.d") ∧
    resultUri c10result = some (Json.str "/abs/q.d") :=
  ⟨c10_absolute_discards_base.1 "/some/base" c10loc c10locOut "/abs/q.d"
     (by rfl) (by rfl) (by rfl),
   c10_absolute_discards_base.2 "/some/base" 0 c10issue c10result "/abs/q.d"
     (by rfl) (by rfl) (by rfl)⟩

/-- Claim C1 (amended): for every valid SARIF input and base directory,
every artifact URI in PathRewriter's output equals
`join(base, normpath(original_uri))` — with no normalization applied
after the join, so a `".."` that survives `normpath(original_uri)`
remains in the output — and the counts and order of runs, results and
locations are preserved. -/
theorem c1_uris_joined (base : String) (data out : Json)
    (h : FixClippySarif.main base data = some out) :
    RunsRewritten base data out := by
  obtain ⟨runs, runs', hruns, hmap, rfl⟩ := FixClippySarif.docRewrite_eq h
  refine ⟨runs, runs', hruns, getKey_setKey_self (Json.arr runs') hruns, ?_⟩
  refine List.Forall₂.imp ?_ (mapO_eq_some_forall₂ hmap)
  intro run run' hrr
  obtain ⟨rs, rs', hres, hmap2, rfl⟩ := FixClippySarif.runRewrite_eq hrr
  refine ⟨rs, rs', hres, getKey_setKey_self (Json.arr rs') hres, ?_⟩
  refine List.Forall₂.imp ?_ (mapO_eq_some_forall₂ hmap2)
  intro r r' hr
  obtain ⟨ls, ls', hlocs, hmap3, rfl⟩ := FixClippySarif.resultRewrite_eq hr
  refine ⟨ls, ls', hlocs, getKey_setKey_self (Json.arr ls') hlocs, ?_⟩
  refine List.Forall₂.imp ?_ (mapO_eq_some_forall₂ hmap3)
  intro l l' hl
  exact FixClippySarif.locRewrite_uri hl

theorem c1_uris_joined_witness : RunsRewritten "/x/y" c1doc c1out :=
  c1_uris_joined "/x/y" c1doc c1out (by rfl)

/-- Claim C1 counterexample: on the spec's own example — single location
URI `"../a/b.d"`, base `"/x/y"` — the code emits `"/x/y/../a/b.d"`,
which still contains a `".."` segment and is not the claimed
`"/x/y/a/b.d"`: the output is not `normalize(join(...))`. -/
theorem c1_counterexample :
    FixClippySarif.main "/x/y" c1doc = some c1out ∧
    docFirstUri c1out = some (Json.str "/x/y/../a/b.d") ∧
    (Py.split '/' "/x/y/../a/b.d").contains ".." = true ∧
    "/x/y/../a/b.d" ≠ "/x/y/a/b.d" := by
  refine ⟨rfl, rfl, rfl, ?_⟩
  decide

/-- Claim C6: PathRewriter's output document is identical to its input
except for the `location.physicalLocation.artifactLocation.uri` fields:
blanking those URIs on both sides yields the same document, so every
other field and the number and order of runs, results and locations are
unchanged. -/
theorem c6_frame (base : String) (data out : Json)
    (h : FixClippySarif.main base data = some out) :
    eraseUris data = eraseUris out := by
  obtain ⟨d₀, h1, h2⟩ := FixClippySarif.docRewrite_erase h
  unfold eraseUris
  rw [h1, h2]

theorem c6_frame_witness : eraseUris c6doc = eraseUris c6out :=
  c6_frame "/base" c6doc c6out (by rfl)

theorem scrubDoc_wrap (x y run : Json) :
    scrubDoc (Json.obj [("version", x), ("runs", Json.arr [run]), ("$schema", y)])
      = Json.obj [("version", x), ("runs", Json.arr [scrubRun run]), ("$schema", y)] := rfl

theorem scrubRun_buildRun_argv (so : String) (git : Option String) (sha br : String)
    (res : List Json) (a₁ a₂ : List String) :
    scrubRun (SonarToSarif.buildRun so a₁ git sha br res)
      = scrubRun (SonarToSarif.buildRun so a₂ git sha br res) := by
  cases hg : Py.strTruthy git <;> simp only [SonarToSarif.buildRun, hg] <;> rfl

/-- Inversion of a run of ReportConverter's `main`: either it refused to
overwrite, or it succeeded and wrote the converted document. -/
theorem SonarToSarif.main_inv (args : SonarToSarif.Args) (env : SonarToSarif.Env)
    (e : SonarToSarif.Effects) (h : SonarToSarif.main args env = some e) :
    ((env.outFileExists && !args.force) = true ∧
      e = { exitCode := 1, readInput := false,
            errMsg := some ("Output file " ++ Py.reprStr args.out_file ++
              " already exists. Use '-f' to overwrite it."),
            written := none }) ∨
    (∃ issues results,
      (env.outFileExists && !args.force) = false ∧
      env.inContent.getKey "issues" = some (Json.arr issues) ∧
      SonarToSarif.convertIssues args.base issues = some results ∧
      e = { exitCode := 0, readInput := true, errMsg := none,
            written := some (Json.obj [
              ("version", Json.str "2.1.0"),
              ("runs", Json.arr [SonarToSarif.buildRun env.scannerOut env.argv args.git
                env.gitSha env.gitBranch results]),
              ("$schema", Json.str SonarToSarif.SCHEMA_URL)]) }) := by
  unfold SonarToSarif.main at h
  by_cases hc : (env.outFileExists && !args.force) = true
  · rw [if_pos hc] at h
    cases h
    exact Or.inl ⟨hc, rfl⟩
  · rw [if_neg hc] at h
    split at h
    · cases h
    · rename_i issuesJ hI
      split at h
      · cases h
      · rename_i issues hA
        split at h
        · cases h
        · rename_i results hC
          cases h
          exact Or.inr ⟨issues, results, by simpa using hc, asArr_eq_some hA ▸ hI,
            hC, rfl⟩

/-- Claim C8: ReportConverter is deterministic — two runs with the same
parsed options, input content and external collaborator outputs (scanner
version query, git SHA and branch), possibly invoked with different
command lines, produce identical effects and identical output documents
modulo the `conversion.invocation.commandLine` field. -/
theorem c8_deterministic (args : SonarToSarif.Args) (oe : Bool) (content : Json)
    (so sha br : String) (a₁ a₂ : List String) (e₁ e₂ : SonarToSarif.Effects)
    (h₁ : SonarToSarif.main args ⟨oe, content, so, sha, br, a₁⟩ = some e₁)
    (h₂ : SonarToSarif.main args ⟨oe, content, so, sha, br, a₂⟩ = some e₂) :
    e₁.exitCode = e₂.exitCode ∧ e₁.readInput = e₂.readInput ∧
    e₁.errMsg = e₂.errMsg ∧
    Option.map scrubDoc e₁.written = Option.map scrubDoc e₂.written := by
  rcases SonarToSarif.main_inv _ _ _ h₁ with ⟨hc₁, rfl⟩ | ⟨is₁, rs₁, hc₁, hI₁, hC₁, rfl⟩ <;>
    rcases SonarToSarif.main_inv _ _ _ h₂ with ⟨hc₂, rfl⟩ | ⟨is₂, rs₂, hc₂, hI₂, hC₂, rfl⟩
  · exact ⟨rfl, rfl, rfl, rfl⟩
  · dsimp only at hc₁ hc₂
    rw [hc₁] at hc₂
    cases hc₂
  · dsimp only at hc₁ hc₂
    rw [hc₂] at hc₁
    cases hc₁
  · dsimp only at hI₁ hI₂ hC₁ hC₂ ⊢
    rw [hI₁] at hI₂
    injection hI₂ with hI₃
    injection hI₃ with hI₄
    subst hI₄
    rw [hC₁] at hC₂
    injection hC₂ with hC₃
    subst hC₃
    refine ⟨rfl, rfl, rfl, ?_⟩
    simp only [Option.map_some']
    rw [scrubDoc_wrap, scrubDoc_wrap, scrubRun_buildRun_argv so args.git sha br rs₁ a₁ a₂]

theorem c8_deterministic_witness :
    c8eff1.exitCode = c8eff2.exitCode ∧ c8eff1.readInput = c8eff2.readInput ∧
    c8eff1.errMsg = c8eff2.errMsg ∧
    Option.map scrubDoc c8eff1.written = Option.map scrubDoc c8eff2.written :=
  c8_deterministic c8args false (Json.obj [("issues", Json.arr [c5issue])])
    "v1.2.3\n" "deadbeef\n" "main\n"
    ["sonar_to_sarif.py", "-f"] ["sonar_to_sarif.py", "--force", "-i", "report.json"]
    c8eff1 c8eff2 (by rfl) (by rfl)
